import Mathlib

/-!
Verification of the VAG token-source chain (`tokenSource`, `metaTokenSource`)
and the RCT meter retry helper (`RCT.queryFloat`) of this repository.

Shallow embedding conventions:
* `Token` models the VAG token value: access credential, long-lived renewal
  (refresh) credential, expiry and the auxiliary id_token claim. Timestamps
  are modelled as `Int` nanoseconds (Go `time.Time` / `time.Duration`), the
  zero value `0` standing for Go's zero time.
* `mergo.Merge(dst, src, mergo.WithOverride)` (the library call inside
  `tokenSource.mergeToken`) is modelled field-wise: a non-empty string
  field of `src` overwrites the field of `dst`, an empty string field
  leaves `dst` alone (mergo recurses into the embedded `oauth2.Token`
  struct, whose exported leaf fields are treated this way). The opaque
  `time.Time` expiry, however, exposes no fields to recurse into and
  mergo's emptiness test has no struct case, so with `WithOverride` the
  held expiry is overwritten unconditionally — even by a zero time.
* `sync.Mutex`, held for the whole accessor call, serializes concurrent
  calls; N concurrent calls are therefore modelled as N sequential calls.
* The refresher, storage and bootstrap collaborators are pure parameters;
  results carry instrumentation counters (`refCalls`, `saveCalls`,
  `newTSCalls`) and the value handed to `Storage.Save` (`saved`) so that
  "collaborator X was (not) invoked" is a statement about the model.
-/

namespace Vag

/-- VAG token value: the embedded `oauth2.Token` fields flattened
(access token, refresh token, expiry) plus the id_token claim. -/
structure Token where
  accessToken : String
  refreshToken : String
  expiry : Int
  idToken : String
deriving DecidableEq, Repr

/-- The reduced `oauth2.Token` view (id_token omitted) returned by the
`Token()` accessors via `&token.Token`. -/
structure OAuth2Token where
  accessToken : String
  refreshToken : String
  expiry : Int
deriving DecidableEq, Repr

/-- `&token.Token`: project the embedded oauth2 token. -/
def Token.reduced (t : Token) : OAuth2Token :=
  ⟨t.accessToken, t.refreshToken, t.expiry⟩

/-- Go `time.Minute` in nanoseconds. -/
def minute : Int := 60000000000

/-- mergo `WithOverride` on a string field: non-empty src overwrites. -/
def overrideStr (dst src : String) : String :=
  if src = "" then dst else src

/-- mergo `WithOverride` on the `time.Time` expiry: `time.Time` has no
exported fields to recurse into and mergo's `isEmptyValue` has no struct
case (every struct, the zero time included, counts as non-empty), so the
src expiry overwrites the held expiry unconditionally. -/
def overrideTime (_dst src : Int) : Int :=
  src

/-- `tokenSource.mergeToken`: `mergo.Merge(ts.token, t, mergo.WithOverride)`,
updating the held token while preventing wiping the refresh token.
The mergo call cannot fail here (dst is a valid non-nil struct pointer),
so the merge is modelled as total. -/
def mergeToken (dst src : Token) : Token :=
  { accessToken := overrideStr dst.accessToken src.accessToken
    refreshToken := overrideStr dst.refreshToken src.refreshToken
    expiry := overrideTime dst.expiry src.expiry
    idToken := overrideStr dst.idToken src.idToken }

/-- State of a `tokenSource`: the held token (`nil` allowed) and whether a
`Storage` collaborator is configured. -/
structure TSState where
  token : Option Token
  hasStore : Bool
deriving DecidableEq, Repr

/-- Outcome of one `tokenSource.TokenEx` call: the post-call state, the
returned token pointer and error, how often the refresher and
`Storage.Save` were invoked, and the value passed to `Storage.Save`. -/
structure ExResult where
  state : TSState
  token : Option Token
  err : Option String
  refCalls : Nat
  saveCalls : Nat
  saved : Option Token
deriving DecidableEq, Repr

/-- `tokenSource.TokenEx` (src/unnamed/part_000 lines 64-84), executed under
the instance mutex. `refresher` is `ts.new`, `save` is `ts.store.Save`
(consulted only when `hasStore`), `now` the current time in ns.
Note: line 79 passes `token` — the raw refresher result — to
`ts.store.Save`, not the merged `ts.token`. -/
def tokenEx (refresher : Token → Except String Token)
    (save : Token → Option String) (now : Int) (s : TSState) : ExResult :=
  match s.token with
  | none => ⟨s, none, some "token not initialized", 0, 0, none⟩
  | some tok =>
    if tok.expiry - now < minute then
      match refresher tok with
      | .error e => ⟨s, some tok, some e, 1, 0, none⟩
      | .ok t =>
        let merged := mergeToken tok t
        let s' : TSState := ⟨some merged, s.hasStore⟩
        if s.hasStore then
          ⟨s', some merged, save t, 1, 1, some t⟩
        else
          ⟨s', some merged, none, 1, 0, none⟩
    else ⟨s, some tok, none, 0, 0, none⟩

/-- Outcome of one reduced `tokenSource.Token` call. -/
structure RedResult where
  state : TSState
  token : Option OAuth2Token
  err : Option String
deriving DecidableEq, Repr

/-- `tokenSource.Token` (lines 55-62): delegate to `TokenEx`; on error
return `nil` and the error, otherwise the reduced oauth2 view. -/
def tokenSourceToken (refresher : Token → Except String Token)
    (save : Token → Option String) (now : Int) (s : TSState) : RedResult :=
  let r := tokenEx refresher save now s
  match r.err with
  | some e => ⟨r.state, none, some e⟩
  | none => ⟨r.state, r.token.map Token.reduced, none⟩

/-- Outcome of a sequence of `TokenEx` calls (the mutex serializes
concurrent callers, so N concurrent calls are N sequential calls). -/
structure ExNResult where
  state : TSState
  results : List (Option Token × Option String)
  refCalls : Nat
deriving DecidableEq, Repr

/-- N serialized `TokenEx` calls on one instance at time `now`. -/
def tokenExN (refresher : Token → Except String Token)
    (save : Token → Option String) (now : Int) : Nat → TSState → ExNResult
  | 0, s => ⟨s, [], 0⟩
  | n + 1, s =>
    let r := tokenEx refresher save now s
    let rest := tokenExN refresher save now n r.state
    ⟨rest.state, (r.token, r.err) :: rest.results, r.refCalls + rest.refCalls⟩

/-- State of a `metaTokenSource`: the optionally held inner token source,
abstracted over the type `σ` of inner-source states (an inner `TokenEx`
call is a state transformer `σ → σ × returned token × error`). -/
structure MetaState (σ : Type) where
  ts : Option σ
deriving DecidableEq, Repr

/-- Outcome of one `metaTokenSource.TokenEx` call, with a counter of
`newTS` factory invocations. The bootstrap provider `newT` is modelled by
the single result it would return during this call. -/
structure MetaExResult (σ : Type) where
  state : MetaState σ
  token : Option Token
  err : Option String
  newTSCalls : Nat
deriving DecidableEq, Repr

/-- The bootstrap tail of `metaTokenSource.TokenEx` (lines 131-147):
request a start token from `newT`; on failure return the error with the
state as it stands. Otherwise build a fresh source with `newTS`, call its
`TokenEx`; if that fails, reset the held source to `nil`; either way
return that call's token and error. -/
def metaBootstrap {σ : Type} (inner : σ → σ × Option Token × Option String)
    (newT : Except String Token) (newTS : Token → σ)
    (s : MetaState σ) : MetaExResult σ :=
  match newT with
  | .error e => ⟨s, none, some e, 0⟩
  | .ok tok0 =>
    match inner (newTS tok0) with
    | (t1, tok, none) => ⟨⟨some t1⟩, tok, none, 1⟩
    | (_, tok, some e) => ⟨⟨none⟩, tok, some e, 1⟩

/-- `metaTokenSource.TokenEx` (lines 119-148), under the instance mutex:
if a source is held, try it and return its token on success (the inner
source's state update happens in place); otherwise fall through to the
bootstrap tail `metaBootstrap`. -/
def metaTokenEx {σ : Type} (inner : σ → σ × Option Token × Option String)
    (newT : Except String Token) (newTS : Token → σ)
    (s : MetaState σ) : MetaExResult σ :=
  match s.ts with
  | some t0 =>
    match inner t0 with
    | (t1, tok, none) => ⟨⟨some t1⟩, tok, none, 0⟩
    | (t1, _, some _) => metaBootstrap inner newT newTS ⟨some t1⟩
  | none => metaBootstrap inner newT newTS s

/-- Outcome of one reduced `metaTokenSource.Token` call. -/
structure MetaRedResult (σ : Type) where
  state : MetaState σ
  token : Option OAuth2Token
  err : Option String
deriving DecidableEq, Repr

/-- `metaTokenSource.Token` (lines 109-116): delegate to `TokenEx`; on
error return `nil` and the error, otherwise the reduced oauth2 view. -/
def metaToken {σ : Type} (inner : σ → σ × Option Token × Option String)
    (newT : Except String Token) (newTS : Token → σ)
    (s : MetaState σ) : MetaRedResult σ :=
  let r := metaTokenEx inner newT newTS s
  match r.err with
  | some e => ⟨r.state, none, some e⟩
  | none => ⟨r.state, r.token.map Token.reduced, none⟩

end Vag

namespace Meter

/-!
Embedding of `RCT.queryFloat` (src/meter/rct.go lines 171-185).

A float32 → float64 conversion is exact (every float32 value is a float64
value), so both are modelled by the shared exact value they denote;
`widenF32` is the corresponding embedding. The exponential backoff policy
(`m.bo`, reset at the start of each call) decides, from elapsed wall-clock
time, how many retries it still allows before `MaxElapsedTime` (1s) runs
out; that timing is abstracted as a retry budget `fuel`. -/

/-- Exact value of a float32 reading. -/
def Float32Val := Int
deriving DecidableEq, Repr

/-- Exact value of a float64 result. -/
def Float64Val := Int
deriving DecidableEq, Repr

/-- `float64(res)`: widening a float32 to float64 is value-preserving. -/
def widenF32 (x : Float32Val) : Float64Val := x

/-- An error returned by `conn.QueryFloat32`: either one matching
`rct.RecoverableError` via `errors.As`, or any other error. -/
inductive RctErr where
  | recoverable (msg : String)
  | other (msg : String)
deriving DecidableEq, Repr

/-- `errors.As(err, new(rct.RecoverableError))`. -/
def RctErr.isRecoverable : RctErr → Bool
  | .recoverable _ => true
  | .other _ => false

/-- `backoff.RetryWithData` applied to the closure of `queryFloat`:
attempt `op i` (the i-th `QueryFloat32` call); stop on success; stop
immediately on an error wrapped `backoff.Permanent` (any error that is
not an `rct.RecoverableError`); on a recoverable error retry while the
backoff budget lasts, else return the last error. Returns the result and
the number of attempts made. -/
def retryWithData (op : Nat → Except RctErr Float32Val) :
    Nat → Nat → Except RctErr Float32Val × Nat
  | fuel, i =>
    match op i with
    | .ok v => (.ok v, 1)
    | .error e =>
      if e.isRecoverable then
        match fuel with
        | 0 => (.error e, 1)
        | fuel' + 1 =>
          let (r, n) := retryWithData op fuel' (i + 1)
          (r, n + 1)
      else (.error e, 1)

/-- `RCT.queryFloat`: reset the backoff (fresh budget `fuel`), retry
`QueryFloat32` with recoverable-only retries, widen the result. -/
def queryFloat (op : Nat → Except RctErr Float32Val) (fuel : Nat) :
    Except RctErr Float64Val × Nat :=
  let (r, n) := retryWithData op fuel 0
  (r.map widenF32, n)

end Meter

namespace Vag

/-! ## Helper lemmas -/

/-- A held token whose expiry is at least one minute away is returned
unchanged with no collaborator call. -/
lemma tokenEx_not_due (refresher : Token → Except String Token)
    (save : Token → Option String) (now : Int) (tok : Token) (st : Bool)
    (h : ¬ tok.expiry - now < minute) :
    tokenEx refresher save now ⟨some tok, st⟩ =
      ⟨⟨some tok, st⟩, some tok, none, 0, 0, none⟩ := by
  simp [tokenEx, h]

/-- Any number of serialized calls on a not-yet-due token leave the state
alone, return the token each time and never invoke the refresher. -/
lemma tokenExN_not_due (refresher : Token → Except String Token)
    (save : Token → Option String) (now : Int) (tok : Token) (st : Bool)
    (h : ¬ tok.expiry - now < minute) :
    ∀ n, tokenExN refresher save now n ⟨some tok, st⟩ =
      ⟨⟨some tok, st⟩, List.replicate n (some tok, none), 0⟩ := by
  intro n
  induction n with
  | zero => simp [tokenExN]
  | succ n ih =>
    simp [tokenExN, tokenEx_not_due refresher save now tok st h, ih,
      List.replicate_succ]

/-! ## Claims -/

/-- C1 counterexample: the claim as stated fails for the expiry field — a
zero ("empty") expiry in the refresh result does not leave the held expiry
untouched but wipes it to the zero time, because mergo's emptiness test
treats any `time.Time` as non-empty and `WithOverride` then overwrites. -/
theorem mergeToken_zero_expiry_wipes :
    (mergeToken (Token.mk "a1" "r1" 10000000000 "")
        (Token.mk "a2" "" 0 "")).expiry = 0 ∧
    (Token.mk "a1" "r1" 10000000000 "").expiry ≠ 0 := by
  decide

/-- C1 (amended): merging a refresh result into a held token via
`mergeToken` follows mergo override semantics on the string fields — a
non-empty string field of the refresh result overwrites the held field, an
empty one leaves it untouched — so a held non-empty renewal credential
never becomes absent; the expiry field, however, is always overwritten by
the refresh result's expiry, even a zero one. -/
theorem mergeToken_override (dst src : Token) (h : dst.refreshToken ≠ "") :
    (mergeToken dst src).refreshToken ≠ "" ∧
    (src.refreshToken = "" → (mergeToken dst src).refreshToken = dst.refreshToken) ∧
    (src.refreshToken ≠ "" → (mergeToken dst src).refreshToken = src.refreshToken) ∧
    (src.accessToken = "" → (mergeToken dst src).accessToken = dst.accessToken) ∧
    (src.accessToken ≠ "" → (mergeToken dst src).accessToken = src.accessToken) ∧
    (mergeToken dst src).expiry = src.expiry ∧
    (src.idToken = "" → (mergeToken dst src).idToken = dst.idToken) ∧
    (src.idToken ≠ "" → (mergeToken dst src).idToken = src.idToken) := by
  refine ⟨?_, ?_, ?_, ?_, ?_, ?_, ?_, ?_⟩
  · by_cases hs : src.refreshToken = ""
    · simpa [mergeToken, overrideStr, hs] using h
    · simp [mergeToken, overrideStr, hs]
  · intro hs
    simp [mergeToken, overrideStr, hs]
  · intro hs
    simp [mergeToken, overrideStr, hs]
  · intro hs
    simp [mergeToken, overrideStr, hs]
  · intro hs
    simp [mergeToken, overrideStr, hs]
  · simp [mergeToken, overrideTime]
  · intro hs
    simp [mergeToken, overrideStr, hs]
  · intro hs
    simp [mergeToken, overrideStr, hs]

/-- C1 witness: the spec scenario — held `{a1, r1, now+10s}` merged with the
refresh result `{a2, "", now+2h}` keeps the renewal credential `r1`. -/
theorem mergeToken_override_witness :
    (Token.mk "a1" "r1" 10000000000 "").refreshToken ≠ "" ∧
    (mergeToken (Token.mk "a1" "r1" 10000000000 "")
        (Token.mk "a2" "" 7200000000000 "")).refreshToken = "r1" :=
  ⟨by decide,
    (mergeToken_override (Token.mk "a1" "r1" 10000000000 "")
      (Token.mk "a2" "" 7200000000000 "") (by decide)).2.1 rfl⟩

/-- C5: a held token whose expiry lies more than one minute in the future is
returned unmodified, the refresher is never invoked, and there is no error. -/
theorem tokenEx_fresh_unmodified (refresher : Token → Except String Token)
    (save : Token → Option String) (now : Int) (tok : Token) (st : Bool)
    (h : minute < tok.expiry - now) :
    tokenEx refresher save now ⟨some tok, st⟩ =
      ⟨⟨some tok, st⟩, some tok, none, 0, 0, none⟩ :=
  tokenEx_not_due refresher save now tok st (by omega)

/-- C5 witness: a token expiring two hours from now is returned unchanged. -/
theorem tokenEx_fresh_unmodified_witness :
    tokenEx (fun _ => .error "refresh must not run") (fun _ => none) 0
      ⟨some (Token.mk "a1" "r1" 7200000000000 ""), false⟩ =
      ⟨⟨some (Token.mk "a1" "r1" 7200000000000 ""), false⟩,
        some (Token.mk "a1" "r1" 7200000000000 ""), none, 0, 0, none⟩ :=
  tokenEx_fresh_unmodified (fun _ => .error "refresh must not run")
    (fun _ => none) 0 (Token.mk "a1" "r1" 7200000000000 "") false (by decide)

/-- C6: when the refresher fails on a due token, the held token is unchanged,
`Storage.Save` is not called, and the call returns the refresher's error
(note: alongside the stale held token). -/
theorem tokenEx_refresh_error_unchanged (refresher : Token → Except String Token)
    (save : Token → Option String) (now : Int) (tok : Token) (st : Bool) (e : String)
    (hdue : tok.expiry - now < minute) (href : refresher tok = .error e) :
    tokenEx refresher save now ⟨some tok, st⟩ =
      ⟨⟨some tok, st⟩, some tok, some e, 1, 0, none⟩ := by
  simp [tokenEx, hdue, href]

/-- C6 witness: a failing refresh on a due token leaves the state alone and
surfaces the error. -/
theorem tokenEx_refresh_error_unchanged_witness :
    tokenEx (fun _ => .error "refresh failed") (fun _ => none) 0
      ⟨some (Token.mk "a1" "r1" 10000000000 ""), true⟩ =
      ⟨⟨some (Token.mk "a1" "r1" 10000000000 ""), true⟩,
        some (Token.mk "a1" "r1" 10000000000 ""), some "refresh failed", 1, 0, none⟩ :=
  tokenEx_refresh_error_unchanged (fun _ => .error "refresh failed")
    (fun _ => none) 0 (Token.mk "a1" "r1" 10000000000 "") true "refresh failed"
    (by decide) rfl

/-- C7: when `Storage.Save` fails after a successful refresh and merge, the
call returns the storage error while the in-memory token keeps the merged
values, and a later call (once not due) observes the merged token. -/
theorem tokenEx_store_error_keeps_merged (refresher : Token → Except String Token)
    (save : Token → Option String) (now : Int) (tok t : Token) (e : String)
    (hdue : tok.expiry - now < minute) (href : refresher tok = .ok t)
    (hsave : save t = some e) :
    tokenEx refresher save now ⟨some tok, true⟩ =
      ⟨⟨some (mergeToken tok t), true⟩, some (mergeToken tok t), some e, 1, 1, some t⟩ ∧
    (∀ now2 : Int, minute < (mergeToken tok t).expiry - now2 →
      tokenEx refresher save now2 ⟨some (mergeToken tok t), true⟩ =
        ⟨⟨some (mergeToken tok t), true⟩, some (mergeToken tok t), none, 0, 0, none⟩) := by
  constructor
  · simp [tokenEx, hdue, href, hsave]
  · intro now2 h2
    exact tokenEx_not_due refresher save now2 (mergeToken tok t) true (by omega)

/-- C7 witness: a `disk full` save error is surfaced while the merged token
(with its preserved renewal credential) stays in memory. -/
theorem tokenEx_store_error_keeps_merged_witness :
    tokenEx (fun _ => .ok (Token.mk "a2" "" 7200000000000 ""))
      (fun _ => some "disk full") 0 ⟨some (Token.mk "a1" "r1" 10000000000 ""), true⟩ =
      ⟨⟨some (mergeToken (Token.mk "a1" "r1" 10000000000 "")
          (Token.mk "a2" "" 7200000000000 "")), true⟩,
        some (mergeToken (Token.mk "a1" "r1" 10000000000 "")
          (Token.mk "a2" "" 7200000000000 "")), some "disk full", 1, 1,
        some (Token.mk "a2" "" 7200000000000 "")⟩ :=
  (tokenEx_store_error_keeps_merged (fun _ => .ok (Token.mk "a2" "" 7200000000000 ""))
    (fun _ => some "disk full") 0 (Token.mk "a1" "r1" 10000000000 "")
    (Token.mk "a2" "" 7200000000000 "") "disk full" (by decide) rfl rfl).1

/-- C2 counterexample: the claim as stated fails — with the mutex modelled
by serializing the N calls, a refresher that returns an immediately-due
token (expiry 1ns) makes two serialized calls on a due instance invoke the
refresher twice, not exactly once. -/
theorem tokenExN_double_refresh :
    (tokenExN (fun _ => .ok (Token.mk "a2" "" 1 "")) (fun _ => none) 0 2
      ⟨some (Token.mk "a1" "r1" 1 ""), false⟩).refCalls = 2 := by decide

/-- C2 (amended): with the mutex serializing the N concurrent calls, if the
held token is due, the refresher succeeds, storage accepts the saved value,
and the merged token is no longer due, then across N ≥ 1 serialized calls
the refresher is invoked exactly once and every call observes the same
post-refresh (merged) token with no error. -/
theorem tokenExN_single_refresh (refresher : Token → Except String Token)
    (save : Token → Option String) (now : Int) (tok t : Token) (n : Nat)
    (hdue : tok.expiry - now < minute)
    (href : refresher tok = .ok t)
    (hsave : save t = none)
    (hfresh : minute ≤ (mergeToken tok t).expiry - now) :
    tokenExN refresher save now (n + 1) ⟨some tok, true⟩ =
      ⟨⟨some (mergeToken tok t), true⟩,
        List.replicate (n + 1) (some (mergeToken tok t), none), 1⟩ := by
  have hnd : ¬ (mergeToken tok t).expiry - now < minute := by omega
  simp [tokenExN, tokenEx, hdue, href, hsave,
    tokenExN_not_due refresher save now (mergeToken tok t) true hnd,
    List.replicate_succ]

/-- C2 witness: two serialized calls with a due token and a two-hour
refresh result — one refresher invocation, both calls see the merged token. -/
theorem tokenExN_single_refresh_witness :
    tokenExN (fun _ => .ok (Token.mk "a2" "" 7200000000000 "")) (fun _ => none) 0 2
      ⟨some (Token.mk "a1" "r1" 10000000000 ""), true⟩ =
      ⟨⟨some (mergeToken (Token.mk "a1" "r1" 10000000000 "")
          (Token.mk "a2" "" 7200000000000 "")), true⟩,
        List.replicate 2 (some (mergeToken (Token.mk "a1" "r1" 10000000000 "")
          (Token.mk "a2" "" 7200000000000 "")), none), 1⟩ :=
  tokenExN_single_refresh (fun _ => .ok (Token.mk "a2" "" 7200000000000 ""))
    (fun _ => none) 0 (Token.mk "a1" "r1" 10000000000 "")
    (Token.mk "a2" "" 7200000000000 "") 1 (by decide) rfl rfl (by decide)

/-- C3: the code passes the raw refresher result to `Storage.Save`
(src/unnamed/part_000 line 79, `ts.store.Save(token)`), not the merged held
token: at the spec's own scenario the saved value carries an empty renewal
credential while the held token kept `r1`, so the saved value differs from
the held one. -/
theorem tokenEx_saves_unmerged :
    (tokenEx (fun _ => .ok (Token.mk "a2" "" 7200000000000 "")) (fun _ => none) 0
        ⟨some (Token.mk "a1" "r1" 10000000000 ""), true⟩).saved =
      some (Token.mk "a2" "" 7200000000000 "") ∧
    (tokenEx (fun _ => .ok (Token.mk "a2" "" 7200000000000 "")) (fun _ => none) 0
        ⟨some (Token.mk "a1" "r1" 10000000000 ""), true⟩).state.token =
      some (Token.mk "a2" "r1" 7200000000000 "") ∧
    (tokenEx (fun _ => .ok (Token.mk "a2" "" 7200000000000 "")) (fun _ => none) 0
        ⟨some (Token.mk "a1" "r1" 10000000000 ""), true⟩).saved ≠
    (tokenEx (fun _ => .ok (Token.mk "a2" "" 7200000000000 "")) (fun _ => none) 0
        ⟨some (Token.mk "a1" "r1" 10000000000 ""), true⟩).state.token := by
  decide

/-- C4 counterexample: the claim as stated fails — when the held source's
`TokenEx` fails and the bootstrap provider then also fails, the previously
held (failing) source is retained, the instance does not transition to
Empty. -/
theorem metaTokenEx_retains_failed_source :
    (metaTokenEx (fun _ : Unit => ((), (none : Option Token), some "inner failed"))
        (Except.error "network unreachable") (fun _ => ()) ⟨some ()⟩).state.ts =
      some () ∧
    (metaTokenEx (fun _ : Unit => ((), (none : Option Token), some "inner failed"))
        (Except.error "network unreachable") (fun _ => ()) ⟨some ()⟩).err =
      some "network unreachable" := by
  decide

/-- C4 (amended): after an inner failure the held source changes only along
the bootstrap path — if the bootstrap provider fails, the previously held
source is retained and the factory is not invoked; if the provider succeeds
and the freshly rebuilt source's `TokenEx` also fails, the held source is
cleared so the next call retries bootstrap from scratch. -/
theorem metaTokenEx_reset_on_rebuild_failure {σ : Type}
    (inner : σ → σ × Option Token × Option String)
    (newT : Except String Token) (newTS : Token → σ) (t0 : σ)
    (hfail : (inner t0).2.2 ≠ none) :
    (∀ e, newT = .error e →
      metaTokenEx inner newT newTS ⟨some t0⟩ =
        ⟨⟨some (inner t0).1⟩, none, some e, 0⟩) ∧
    (∀ tok0 e2, newT = .ok tok0 → (inner (newTS tok0)).2.2 = some e2 →
      metaTokenEx inner newT newTS ⟨some t0⟩ =
        ⟨⟨none⟩, (inner (newTS tok0)).2.1, some e2, 1⟩) := by
  rcases hi : inner t0 with ⟨t1, tok1, err1⟩
  cases err1 with
  | none => exact absurd (by simp [hi]) hfail
  | some e1 =>
    constructor
    · intro e he
      subst he
      simp [metaTokenEx, hi, metaBootstrap]
    · intro tok0 e2 he hinner2
      subst he
      rcases hi2 : inner (newTS tok0) with ⟨t2, tok2, err2⟩
      rw [hi2] at hinner2
      simp only at hinner2
      subst hinner2
      simp [metaTokenEx, hi, metaBootstrap, hi2]

/-- C4 witness: held source failing, bootstrap token obtained, rebuilt
source failing too — the held source ends up cleared. -/
theorem metaTokenEx_reset_on_rebuild_failure_witness :
    metaTokenEx (fun _ : Unit => ((), (none : Option Token), some "fail"))
      (Except.ok (Token.mk "a1" "r1" 0 "")) (fun _ => ()) ⟨some ()⟩ =
      ⟨⟨none⟩, none, some "fail", 1⟩ :=
  (metaTokenEx_reset_on_rebuild_failure
      (fun _ : Unit => ((), (none : Option Token), some "fail"))
      (Except.ok (Token.mk "a1" "r1" 0 "")) (fun _ => ()) () (by decide)).2
    (Token.mk "a1" "r1" 0 "") "fail" rfl rfl

/-- C8 counterexample: the claim as stated fails — a failing extended
accessor call returns the stale held token alongside the non-nil error. -/
theorem tokenEx_error_returns_stale :
    (tokenEx (fun _ => .error "refresh failed") (fun _ => none) 0
        ⟨some (Token.mk "a1" "r1" 10000000000 ""), false⟩).token =
      some (Token.mk "a1" "r1" 10000000000 "") ∧
    (tokenEx (fun _ => .error "refresh failed") (fun _ => none) 0
        ⟨some (Token.mk "a1" "r1" 10000000000 ""), false⟩).err =
      some "refresh failed" := by
  decide

/-- C8 (amended): the reduced accessors `Token()` of both `tokenSource` and
`metaTokenSource` return no credential whenever they return a non-nil
error; the extended `TokenEx` accessors, however, may return the stale held
token alongside an error. -/
theorem token_error_no_credential {σ : Type}
    (refresher : Token → Except String Token) (save : Token → Option String)
    (now : Int) (s : TSState)
    (inner : σ → σ × Option Token × Option String)
    (newT : Except String Token) (newTS : Token → σ) (ms : MetaState σ) :
    ((tokenSourceToken refresher save now s).err ≠ none →
      (tokenSourceToken refresher save now s).token = none) ∧
    ((metaToken inner newT newTS ms).err ≠ none →
      (metaToken inner newT newTS ms).token = none) := by
  constructor
  · intro h
    rcases he : (tokenEx refresher save now s).err with _ | e
    · simp [tokenSourceToken, he] at h
    · simp [tokenSourceToken, he]
  · intro h
    rcases he : (metaTokenEx inner newT newTS ms).err with _ | e
    · simp [metaToken, he] at h
    · simp [metaToken, he]

/-- C8 witness: the reduced accessor on a failing refresh yields no
credential. -/
theorem token_error_no_credential_witness :
    (tokenSourceToken (fun _ => .error "refresh failed") (fun _ => none) 0
        ⟨some (Token.mk "a1" "r1" 1 ""), false⟩).token = none :=
  (token_error_no_credential (fun _ => .error "refresh failed") (fun _ => none) 0
      ⟨some (Token.mk "a1" "r1" 1 ""), false⟩
      (fun _ : Unit => ((), (none : Option Token), (none : Option String)))
      (Except.ok (Token.mk "" "" 0 "")) (fun _ => ()) ⟨none⟩).1 (by decide)

/-- C9: on an Empty instance whose bootstrap provider fails, `TokenEx`
returns exactly the provider's error and no token, the instance stays
Empty, and the factory `newTS` is never invoked. -/
theorem metaTokenEx_empty_bootstrap_error {σ : Type}
    (inner : σ → σ × Option Token × Option String) (newTS : Token → σ)
    (e : String) :
    metaTokenEx inner (.error e) newTS ⟨none⟩ = ⟨⟨none⟩, none, some e, 0⟩ :=
  rfl

end Vag

namespace Meter

/-- Structure of a `retryWithData` run starting at attempt `i`: at least one
attempt is made, every attempt before the last follows a recoverable error,
a successful result is the value of the last attempt, and a failing result
is the error of the last attempt. -/
lemma retryWithData_spec (op : Nat → Except RctErr Float32Val) :
    ∀ fuel i : Nat,
      1 ≤ (retryWithData op fuel i).2 ∧
      (∀ j, j + 1 < (retryWithData op fuel i).2 →
        ∃ e, op (i + j) = .error e ∧ e.isRecoverable = true) ∧
      (∀ v, (retryWithData op fuel i).1 = .ok v →
        op (i + ((retryWithData op fuel i).2 - 1)) = .ok v) ∧
      (∀ e, (retryWithData op fuel i).1 = .error e →
        op (i + ((retryWithData op fuel i).2 - 1)) = .error e) := by
  intro fuel
  induction fuel with
  | zero =>
    intro i
    cases hop : op i with
    | ok v =>
      refine ⟨?_, ?_, ?_, ?_⟩ <;> simp [retryWithData, hop]
    | error e =>
      by_cases hrec : e.isRecoverable <;>
        refine ⟨?_, ?_, ?_, ?_⟩ <;> simp [retryWithData, hop, hrec]
  | succ fuel ih =>
    intro i
    cases hop : op i with
    | ok v =>
      refine ⟨?_, ?_, ?_, ?_⟩ <;> simp [retryWithData, hop]
    | error e =>
      by_cases hrec : e.isRecoverable
      · obtain ⟨h1, h2, h3, h4⟩ := ih (i + 1)
        rcases hrw : retryWithData op fuel (i + 1) with ⟨r, n⟩
        rw [hrw] at h1 h2 h3 h4
        simp only at h1 h2 h3 h4
        have hres : retryWithData op (fuel + 1) i = (r, n + 1) := by
          simp [retryWithData, hop, hrec, hrw]
        rw [hres]
        refine ⟨by omega, ?_, ?_, ?_⟩
        · intro j hj
          cases j with
          | zero => exact ⟨e, by simpa using hop, hrec⟩
          | succ j =>
            obtain ⟨e2, he1, he2⟩ := h2 j (by omega)
            exact ⟨e2, by rw [show i + (j + 1) = i + 1 + j by omega]; exact he1, he2⟩
        · intro v hv
          have hlast := h3 v hv
          rw [show i + (n + 1 - 1) = i + 1 + (n - 1) by omega]
          exact hlast
        · intro e2 he
          have hlast := h4 e2 he
          rw [show i + (n + 1 - 1) = i + 1 + (n - 1) by omega]
          exact hlast
      · refine ⟨?_, ?_, ?_, ?_⟩ <;> simp [retryWithData, hop, hrec]

/-- C10: `queryFloat` makes at least one attempt and retries `QueryFloat32`
only after errors matching `rct.RecoverableError`; a non-recoverable error
at any executed attempt `j` ends the run right there — that attempt is the
last one, so the query is attempted exactly once for that error — and that
error is returned; a success is the last attempt's float32 value widened to
float64. -/
theorem queryFloat_retry_policy (op : Nat → Except RctErr Float32Val)
    (fuel : Nat) :
    1 ≤ (queryFloat op fuel).2 ∧
    (∀ j, j + 1 < (queryFloat op fuel).2 →
      ∃ e, op j = .error e ∧ e.isRecoverable = true) ∧
    (∀ j e, j < (queryFloat op fuel).2 → op j = .error e →
      e.isRecoverable = false →
      (queryFloat op fuel).2 = j + 1 ∧ (queryFloat op fuel).1 = .error e) ∧
    (∀ w, (queryFloat op fuel).1 = .ok w →
      ∃ v, op ((queryFloat op fuel).2 - 1) = .ok v ∧ w = widenF32 v) := by
  obtain ⟨h1, h2, h3, h4⟩ := retryWithData_spec op fuel 0
  rcases hrw : retryWithData op fuel 0 with ⟨r, n⟩
  rw [hrw] at h1 h2 h3 h4
  simp only at h1 h2 h3 h4
  have hq : queryFloat op fuel = (r.map widenF32, n) := by
    simp [queryFloat, hrw]
  rw [hq]
  refine ⟨h1, ?_, ?_, ?_⟩
  · intro j hj
    simp only at hj
    obtain ⟨e, he1, he2⟩ := h2 j hj
    exact ⟨e, by simpa using he1, he2⟩
  · intro j e hj hop hrec
    simp only at hj
    have hn : n = j + 1 := by
      by_contra hne
      obtain ⟨e2, he1, he2⟩ := h2 j (by omega)
      rw [Nat.zero_add, hop] at he1
      injection he1 with he1
      rw [← he1] at he2
      rw [he2] at hrec
      exact absurd hrec (by simp)
    subst hn
    refine ⟨rfl, ?_⟩
    cases r with
    | ok v =>
      have := h3 v rfl
      rw [Nat.zero_add, Nat.add_sub_cancel, hop] at this
      exact absurd this (by simp)
    | error e2 =>
      have := h4 e2 rfl
      rw [Nat.zero_add, Nat.add_sub_cancel, hop] at this
      injection this with this
      rw [this]
      simp [Except.map]
  · intro w hw
    cases r with
    | error e => simp [Except.map] at hw
    | ok v =>
      simp only [Except.map, Except.ok.injEq] at hw
      exact ⟨v, by simpa using h3 v rfl, hw.symm⟩

/-- C10 witness: a recoverable timeout followed by a non-recoverable
protocol error — the run stops at the second attempt and returns the
protocol error. -/
theorem queryFloat_retry_policy_witness :
    (queryFloat (fun i => if i = 0 then .error (RctErr.recoverable "timeout")
        else .error (RctErr.other "protocol violation")) 5).2 = 1 + 1 ∧
    (queryFloat (fun i => if i = 0 then .error (RctErr.recoverable "timeout")
        else .error (RctErr.other "protocol violation")) 5).1 =
      .error (RctErr.other "protocol violation") :=
  (queryFloat_retry_policy
      (fun i => if i = 0 then .error (RctErr.recoverable "timeout")
        else .error (RctErr.other "protocol violation")) 5).2.2.1 1
    (RctErr.other "protocol violation") (by decide) rfl rfl

end Meter
